import Mathlib

/-!
Verification of the secret-store core of `secure_api_manager.py`
(class `SecureAPIManager`): a local, at-rest credential store that
encrypts a single API key with a lazily created master key (Fernet)
and persists ciphertext plus per-provider metadata.

Modelling choices:

* The file system visible to the store is captured by `Store`:
  the master-key file `data/.master_key`, the single ciphertext file
  `data/api_key.encrypted` (shared by all providers), and the
  per-provider metadata files `data/<provider>_meta.json`.
* Fernet is an authenticated symmetric scheme (AES-CBC + HMAC-SHA256
  over the whole token).  It is modelled symbolically: a well-formed
  token is `FileData.cipher keyId plaintext`; decryption succeeds
  exactly on a well-formed token produced under the same key, and any
  byte-level modification of a token (constructor `FileData.corrupt`)
  fails HMAC verification and therefore decrypts to `none`.  Master
  keys are identified by a freshness counter: `Fernet.generate_key()`
  returns cryptographically random keys, so two distinct generations
  are modelled as distinct key identifiers.
* `datetime.now().isoformat()` is an input parameter `now`.
* File-system I/O errors, `os.chmod` and console printing are not
  modelled; which diagnostic path `get_api_key` takes is recorded in
  `GetOutcome`, and the value the Python function actually returns to
  its caller is recovered by `returnValue`.
-/

/-- Contents of the shared ciphertext file `data/api_key.encrypted`.
`cipher keyId plaintext` is a well-formed Fernet token encrypting
`plaintext` under the master key `keyId`; `corrupt orig pos b` is the
byte string of `orig` with the byte at offset `pos` replaced by `b`
(a tampered token, no longer HMAC-valid under any key). -/
inductive FileData where
  | cipher (keyId : Nat) (plaintext : String)
  | corrupt (orig : FileData) (pos : Nat) (newByte : Nat)
deriving Repr, DecidableEq

/-- Fernet decryption under master key `k`: succeeds exactly on an
untampered token produced under `k` (authenticated encryption fails
closed on a wrong key or a modified token). -/
def fernetDecrypt (k : Nat) : FileData → Option String
  | .cipher k' pt => if k' = k then some pt else none
  | .corrupt _ _ _ => none

/-- The metadata dictionary built by `save_api_key` (source lines
72-77): provider name, creation timestamp, `encrypted = True` and
`key_length = len(api_key)` (Python `len` of a `str`, i.e. the number
of characters). -/
structure Metadata where
  provider : String
  created_at : String
  encrypted : Bool
  key_length : Nat
deriving Repr, DecidableEq

/-- Serialization of the metadata file exactly as
`json.dump(metadata, f, indent=2)` renders the dictionary
(insertion order of the keys, two-space indent). -/
def metaJson (md : Metadata) : String :=
  "\x7b\n  \"provider\": \"" ++ md.provider ++
  "\",\n  \"created_at\": \"" ++ md.created_at ++
  "\",\n  \"encrypted\": " ++ (if md.encrypted then "true" else "false") ++
  ",\n  \"key_length\": " ++ toString md.key_length ++ "\n\x7d"

/-- The store-visible file system of one `SecureAPIManager` instance:
`master_key_file` is the contents of `data/.master_key` (`none` when
the file is absent), `key_file` the contents of the single ciphertext
file `data/api_key.encrypted`, `meta_files` the association of
provider names to the metadata files `data/<provider>_meta.json`, and
`fresh` the supply of fresh random keys for `Fernet.generate_key()`. -/
structure Store where
  master_key_file : Option Nat := none
  key_file : Option FileData := none
  meta_files : List (String × Metadata) := []
  fresh : Nat := 0
deriving Repr, DecidableEq

/-- A fresh vault directory: no master key, no ciphertext, no
metadata. -/
def Store.init : Store := {}

/-- Freshness invariant: any key recorded in the master-key file was
drawn from the fresh supply earlier, so it is below the counter.
Every reachable store satisfies it; `Store.init` trivially does. -/
def Store.WF (s : Store) : Prop :=
  ∀ k, s.master_key_file = some k → k < s.fresh

/-- Source `_get_or_create_master_key` (lines 24-40): if the
master-key file exists return its raw contents unvalidated; otherwise
generate a fresh key, write it to the file and return it.  The
`os.chmod` best-effort permission call has no modelled effect. -/
def get_or_create_master_key (s : Store) : Nat × Store :=
  match s.master_key_file with
  | some k => (k, s)
  | none =>
      (s.fresh, { s with master_key_file := some s.fresh, fresh := s.fresh + 1 })

/-- Source `_encrypt_api_key` (lines 42-47): obtain the master key
and produce a Fernet token over the cleartext. -/
def encrypt_api_key (s : Store) (api_key : String) : FileData × Store :=
  let p := get_or_create_master_key s
  (.cipher p.1 api_key, p.2)

/-- Source `_decrypt_api_key` (lines 49-58): obtain the master key
and attempt decryption; on any decryption exception the source prints
a diagnostic and returns `None`, modelled as `none`. -/
def decrypt_api_key (s : Store) (encrypted_key : FileData) : Option String × Store :=
  let p := get_or_create_master_key s
  (fernetDecrypt p.1 encrypted_key, p.2)

/-- Source `save_api_key` (lines 60-98): encrypt the key, build the
metadata dictionary, write the ciphertext to the shared key file and
the metadata to `<provider>_meta.json` (overwriting any previous file
of that name), and return `True`.  No validation of `api_key` is
performed. -/
def save_api_key (s : Store) (api_key : String) (provider : String)
    (now : String) : Bool × Store :=
  let e := encrypt_api_key s api_key
  let md : Metadata :=
    { provider := provider, created_at := now,
      encrypted := true, key_length := api_key.length }
  (true,
    { e.2 with
        key_file := some e.1,
        meta_files := (provider, md) ::
          e.2.meta_files.filter (fun kv => kv.1 ≠ provider) })

/-- Which control path `get_api_key` takes: the early `None` return
when the ciphertext file is absent, the `None` return after a printed
decryption diagnostic, or success with the recovered cleartext. -/
inductive GetOutcome where
  | notFound
  | decryptFail
  | ok (secret : String)
deriving Repr, DecidableEq

/-- The value the Python `get_api_key` returns to its caller for each
outcome: `None` on both failure paths, the cleartext on success. -/
def returnValue : GetOutcome → Option String
  | .notFound => none
  | .decryptFail => none
  | .ok secret => some secret

/-- Source `get_api_key` (lines 100-116): `None` if the shared
ciphertext file does not exist; otherwise read it and delegate to
`_decrypt_api_key` (which may lazily create a master key).  The
`provider` argument is never consulted. -/
def get_api_key (s : Store) (provider : String) : GetOutcome × Store :=
  match s.key_file with
  | none => (.notFound, s)
  | some ct =>
      let r := decrypt_api_key s ct
      match r.1 with
      | some pt => (.ok pt, r.2)
      | none => (.decryptFail, r.2)

/-- Source `has_api_key` (lines 118-120): existence check on the
shared ciphertext file only; the `provider` argument is unused. -/
def has_api_key (s : Store) (provider : String) : Bool :=
  s.key_file.isSome

/-- Source `delete_api_key` (lines 122-134): remove the shared
ciphertext file if present and the provider's metadata file if
present; return `True`. -/
def delete_api_key (s : Store) (provider : String) : Bool × Store :=
  (true,
    { s with
        key_file := none,
        meta_files := s.meta_files.filter (fun kv => kv.1 ≠ provider) })

/-- Deleting the master-key file `data/.master_key` from outside the
manager. -/
def delete_master_key_file (s : Store) : Store :=
  { s with master_key_file := none }

/-- Flipping one byte of the stored ciphertext file: the file now
holds a tampered token (byte at `pos` replaced by `b`). -/
def flip_ciphertext_byte (s : Store) (pos b : Nat) : Store :=
  { s with key_file := s.key_file.map (fun fd => .corrupt fd pos b) }

/-- Classification of one iteration of the `prompt_for_api_key` loop
(source lines 146-159) on a candidate input: rejected as empty,
rejected as too short, or passed on to the yes/no confirmation. -/
inductive PromptStep where
  | rejectEmpty
  | rejectShort
  | askConfirm
deriving Repr, DecidableEq

/-- One iteration of the enrollment loop body on the entered string:
`if not api_key` re-prompt; `if len(api_key) < 10` re-prompt;
otherwise ask for confirmation. -/
def prompt_step (api_key : String) : PromptStep :=
  if api_key = "" then .rejectEmpty
  else if api_key.length < 10 then .rejectShort
  else .askConfirm

/-- Python `str.lower()` on the confirmation answer: lower-case each
character. -/
def pyLower (s : String) : String :=
  String.mk (s.data.map Char.toLower)

/-- Source `prompt_for_api_key` (lines 136-159) run against a script
of operator responses, each a pair of the entered key and the answer
to `Confirm? (y/n)`.  Empty or too-short input re-prompts; a
conforming input is returned when confirmed with `y` (lower-cased),
and discarded with a re-prompt otherwise.  `none` models the operator
aborting externally when the script is exhausted. -/
def prompt_for_api_key : List (String × String) → Option String
  | [] => none
  | (api_key, confirm) :: rest =>
      if api_key = "" then prompt_for_api_key rest
      else if api_key.length < 10 then prompt_for_api_key rest
      else if pyLower confirm = "y" then some api_key
      else prompt_for_api_key rest

/-- Boolean substring test: `substrB n h` is `true` iff the character
list `n` occurs contiguously inside `h`. -/
def substrB (n : List Char) : List Char → Bool
  | [] => n.isEmpty
  | c :: t => n.isPrefixOf (c :: t) || substrB n t

/-- C1: for every non-empty string `secret` and provider `p`, a `get`
for `p` immediately after a successful `save` of `secret` under `p`,
with no intervening operation, recovers exactly `secret`. -/
theorem C1_round_trip (s0 : Store) (p secret now : String) (h : secret ≠ "") :
    (save_api_key s0 secret p now).1 = true ∧
    (get_api_key (save_api_key s0 secret p now).2 p).1 = .ok secret := by
  cases h0 : s0.master_key_file <;>
    simp [save_api_key, encrypt_api_key, decrypt_api_key, get_api_key,
      get_or_create_master_key, fernetDecrypt, h0]

/-- Witness for C1 at a concrete non-empty secret. -/
theorem C1_round_trip_witness :
    "hello12345" ≠ "" ∧
    ((save_api_key Store.init "hello12345" "google" "t").1 = true ∧
      (get_api_key (save_api_key Store.init "hello12345" "google" "t").2 "google").1 =
        .ok "hello12345") :=
  ⟨by decide, C1_round_trip Store.init "google" "hello12345" "t" (by decide)⟩

/-- C2: after any save, replacing one byte of the stored ciphertext
file makes a subsequent `get` (under any provider) take the
decryption-failure path and hand the caller `none` — never a
different cleartext and never garbage reported as success. -/
theorem C2_tamper_detection (s0 : Store) (p1 p2 secret now : String) (pos b : Nat) :
    (get_api_key (flip_ciphertext_byte (save_api_key s0 secret p1 now).2 pos b) p2).1 =
      .decryptFail ∧
    returnValue
      (get_api_key (flip_ciphertext_byte (save_api_key s0 secret p1 now).2 pos b) p2).1 =
      none := by
  cases h0 : s0.master_key_file <;>
    simp [save_api_key, encrypt_api_key, decrypt_api_key, get_api_key,
      get_or_create_master_key, fernetDecrypt, flip_ciphertext_byte, returnValue, h0]

/-- C3 counterexample: after deleting the master-key file, `get`
takes the decryption-failure path, while a fresh store's `get` takes
the not-found path — yet the value returned to the caller is `none`
in both cases, so the two outcomes are not distinguishable by the
caller, contrary to the claim. -/
theorem C3_counterexample :
    (get_api_key
        (delete_master_key_file
          (save_api_key Store.init "secretvalue1" "google" "t").2) "google").1 =
      .decryptFail ∧
    (get_api_key Store.init "google").1 = .notFound ∧
    returnValue
        (get_api_key
          (delete_master_key_file
            (save_api_key Store.init "secretvalue1" "google" "t").2) "google").1 =
      returnValue (get_api_key Store.init "google").1 := by decide

/-- C3 amended: deleting the master-key file after a successful save
makes every subsequent `get` fail via the decryption-error path
(a fresh key is silently regenerated and cannot decrypt the stored
token), returning `none` to the caller — the same `None` the caller
receives in the not-found case. -/
theorem C3_key_loss_decrypt_fail (s0 : Store) (hwf : s0.WF) (p1 p2 secret now : String) :
    (get_api_key
        (delete_master_key_file (save_api_key s0 secret p1 now).2) p2).1 =
      .decryptFail ∧
    returnValue
      (get_api_key
        (delete_master_key_file (save_api_key s0 secret p1 now).2) p2).1 = none := by
  cases h0 : s0.master_key_file with
  | none =>
      simp [save_api_key, encrypt_api_key, decrypt_api_key, get_api_key,
        get_or_create_master_key, fernetDecrypt, delete_master_key_file,
        returnValue, h0]
  | some k =>
      have hk : k < s0.fresh := hwf k h0
      have hne : ¬ (k = s0.fresh) := by omega
      simp [save_api_key, encrypt_api_key, decrypt_api_key, get_api_key,
        get_or_create_master_key, fernetDecrypt, delete_master_key_file,
        returnValue, h0, hne]

/-- Witness for C3's amended theorem at a concrete store. -/
theorem C3_key_loss_decrypt_fail_witness :
    Store.WF Store.init ∧
    ((get_api_key
        (delete_master_key_file
          (save_api_key Store.init "secretvalue1" "google" "t").2) "google").1 =
        .decryptFail ∧
      returnValue
        (get_api_key
          (delete_master_key_file
            (save_api_key Store.init "secretvalue1" "google" "t").2) "google").1 =
        none) :=
  have hwf : Store.WF Store.init := by intro k h; simp [Store.init] at h
  ⟨hwf, C3_key_loss_decrypt_fail Store.init hwf "google" "google" "secretvalue1" "t"⟩

/-- C4 counterexample: `save` with the empty secret reports success
and writes both the ciphertext file and the metadata file, contrary
to the claimed rejection with a validation error. -/
theorem C4_counterexample :
    (save_api_key Store.init "" "google" "t").1 = true ∧
    (save_api_key Store.init "" "google" "t").2.key_file.isSome = true ∧
    ((save_api_key Store.init "" "google" "t").2.meta_files.lookup "google").isSome =
      true := by decide

/-- C4 amended: `save` performs no validation of the secret: saving
the empty secret under any provider reports success and writes both
the ciphertext file and the metadata file; empty-input rejection
exists only in the interactive enrollment prompt. -/
theorem C4_empty_secret_accepted (s0 : Store) (p now : String) :
    (save_api_key s0 "" p now).1 = true ∧
    (save_api_key s0 "" p now).2.key_file.isSome = true ∧
    ((save_api_key s0 "" p now).2.meta_files.lookup p).isSome = true := by
  cases h0 : s0.master_key_file <;>
    simp [save_api_key, encrypt_api_key, get_or_create_master_key, h0, List.lookup]

/-- C5: a second save for the same provider overwrites the stored
credential: `save(p, a)` then `save(p, b)` then `get(p)` yields `b`,
and when `a` and `b` differ the ciphertext file read is no longer the
one the first save wrote. -/
theorem C5_overwrite (s0 : Store) (p now1 now2 a b : String) :
    (get_api_key (save_api_key (save_api_key s0 a p now1).2 b p now2).2 p).1 = .ok b ∧
    (a ≠ b →
      (save_api_key (save_api_key s0 a p now1).2 b p now2).2.key_file ≠
        (save_api_key s0 a p now1).2.key_file) := by
  cases h0 : s0.master_key_file <;>
    simp [save_api_key, encrypt_api_key, decrypt_api_key, get_api_key,
      get_or_create_master_key, fernetDecrypt, h0] <;>
    exact fun hne hba => hne hba.symm

/-- Witness for C5 at concrete secrets `a` and `b`. -/
theorem C5_overwrite_witness :
    (get_api_key
        (save_api_key (save_api_key Store.init "a" "google" "t1").2 "b" "google" "t2").2
        "google").1 = .ok "b" ∧
    ("a" ≠ "b" →
      (save_api_key (save_api_key Store.init "a" "google" "t1").2 "b" "google" "t2").2.key_file ≠
        (save_api_key Store.init "a" "google" "t1").2.key_file) :=
  C5_overwrite Store.init "google" "t1" "t2" "a" "b"

/-- C6 counterexample: the accepted secret `"true"` occurs as a
substring of the serialized metadata file that its own save writes
(the `"encrypted": true` field), contrary to the claim that no
accepted secret ever occurs in the metadata serialization. -/
theorem C6_counterexample :
    Option.map (fun md => substrB "true".toList (metaJson md).toList)
      ((save_api_key Store.init "true" "google" "2026-01-01T00:00:00").2.meta_files.lookup
        "google") = some true := by decide

/-- C6 amended: the metadata serialization never copies the secret's
characters — it depends on the secret only through its length, so two
secrets of equal length produce byte-identical metadata files; a
secret can occur in the file only by coinciding with the fixed
skeleton, the provider name, the timestamp, or the length digits. -/
theorem C6_metadata_secret_independent (s0 s0' : Store) (p now s1 s2 : String)
    (h : s1.length = s2.length) :
    Option.map metaJson ((save_api_key s0 s1 p now).2.meta_files.lookup p) =
      Option.map metaJson ((save_api_key s0' s2 p now).2.meta_files.lookup p) := by
  simp [save_api_key, encrypt_api_key, get_or_create_master_key, List.lookup, h]

/-- Witness for C6's amended theorem at two distinct equal-length
secrets. -/
theorem C6_metadata_secret_independent_witness :
    ("abcdefghij".length = "0123456789".length) ∧
    Option.map metaJson
        ((save_api_key Store.init "abcdefghij" "google" "t").2.meta_files.lookup "google") =
      Option.map metaJson
        ((save_api_key Store.init "0123456789" "google" "t").2.meta_files.lookup "google") :=
  ⟨by decide,
    C6_metadata_secret_independent Store.init Store.init "google" "t"
      "abcdefghij" "0123456789" (by decide)⟩

/-- C7: the master-key accessor is deterministic: when the key file
exists it returns exactly its raw contents and leaves the store
untouched (no validation of the contents); when absent it generates a
key and writes it, so the key file exists afterwards; and repeating
the call returns the same key and changes nothing further. -/
theorem C7_master_key_deterministic (s : Store) :
    (∀ k0, s.master_key_file = some k0 →
        (get_or_create_master_key s).1 = k0 ∧ (get_or_create_master_key s).2 = s) ∧
    (get_or_create_master_key s).2.master_key_file =
      some (get_or_create_master_key s).1 ∧
    (get_or_create_master_key (get_or_create_master_key s).2).1 =
      (get_or_create_master_key s).1 ∧
    (get_or_create_master_key (get_or_create_master_key s).2).2 =
      (get_or_create_master_key s).2 := by
  cases h0 : s.master_key_file <;> simp [get_or_create_master_key, h0]

/-- Witness for C7: a store whose key file holds key `5` gets `5`
back unchanged, and a fresh store has a key file after one call. -/
theorem C7_master_key_deterministic_witness :
    ((get_or_create_master_key
        { master_key_file := some 5, key_file := none, meta_files := [], fresh := 6 }).1 = 5 ∧
      (get_or_create_master_key
        { master_key_file := some 5, key_file := none, meta_files := [], fresh := 6 }).2 =
        { master_key_file := some 5, key_file := none, meta_files := [], fresh := 6 }) ∧
    (get_or_create_master_key Store.init).2.master_key_file =
      some (get_or_create_master_key Store.init).1 :=
  ⟨(C7_master_key_deterministic
      { master_key_file := some 5, key_file := none, meta_files := [], fresh := 6 }).1 5 rfl,
   (C7_master_key_deterministic Store.init).2.1⟩

/-- C8 counterexample: for the one-character secret `"é"` (two bytes
in UTF-8) the metadata records `key_length = 1`, the character count,
not the byte length `2` claimed. -/
theorem C8_counterexample :
    Option.map Metadata.key_length
        ((save_api_key Store.init "é" "google" "t").2.meta_files.lookup "google") =
      some 1 ∧
    "é".utf8ByteSize = 2 ∧ (1 : Nat) ≠ 2 := by decide

/-- C8 amended: the `key_length` recorded in the provider's metadata
file equals the number of characters of the cleartext secret (Python
`len` on `str`), which coincides with the UTF-8 byte length only when
every character of the secret is ASCII. -/
theorem C8_key_length_char_count (s0 : Store) (p now secret : String) :
    Option.map Metadata.key_length
        ((save_api_key s0 secret p now).2.meta_files.lookup p) =
      some secret.length := by
  simp [save_api_key, encrypt_api_key, get_or_create_master_key, List.lookup]

/-- C9: one pass of the enrollment loop rejects every input shorter
than 10 characters (the empty input included) with a re-prompt — the
loop just continues with the remaining script — while every input of
10 or more characters passes the length check and moves on to the
yes/no confirmation. -/
theorem C9_min_length_boundary (inp confirm : String) (rest : List (String × String)) :
    (inp.length < 10 →
        prompt_step inp ≠ .askConfirm ∧
        prompt_for_api_key ((inp, confirm) :: rest) = prompt_for_api_key rest) ∧
    (10 ≤ inp.length →
        prompt_step inp = .askConfirm ∧
        prompt_for_api_key ((inp, confirm) :: rest) =
          (if pyLower confirm = "y" then some inp else prompt_for_api_key rest)) := by
  constructor
  · intro h10
    by_cases he : inp = ""
    · simp [prompt_step, prompt_for_api_key, he]
    · simp [prompt_step, prompt_for_api_key, he, h10]
  · intro h10
    have he : inp ≠ "" := by
      intro he
      rw [he] at h10
      exact absurd h10 (by decide)
    have hlt : ¬ inp.length < 10 := not_lt.mpr h10
    simp [prompt_step, prompt_for_api_key, he, hlt]

/-- Witness for C9: a 5-character input is skipped over by the loop
and a 10-character input reaches confirmation. -/
theorem C9_min_length_boundary_witness :
    ("12345".length < 10 ∧
      prompt_step "12345" ≠ .askConfirm ∧
      prompt_for_api_key [("12345", "y"), ("abcdefghij", "y")] =
        prompt_for_api_key [("abcdefghij", "y")]) ∧
    (10 ≤ "abcdefghij".length ∧ prompt_step "abcdefghij" = .askConfirm) :=
  ⟨⟨by decide,
      (C9_min_length_boundary "12345" "y" [("abcdefghij", "y")]).1 (by decide)⟩,
   ⟨by decide,
      ((C9_min_length_boundary "abcdefghij" "y" []).2 (by decide)).1⟩⟩

/-- C10: `has` and `get` ignore their provider argument: after a save
under provider `p1`, `has` answers `true` and `get` recovers the same
secret for every provider `p2`, because all providers share the
single ciphertext file; `delete` under any provider likewise removes
that shared file. -/
theorem C10_provider_ignored (s0 : Store) (p1 p2 secret now : String) :
    has_api_key (save_api_key s0 secret p1 now).2 p2 = true ∧
    (get_api_key (save_api_key s0 secret p1 now).2 p2).1 = .ok secret ∧
    (delete_api_key (save_api_key s0 secret p1 now).2 p2).2.key_file = none := by
  cases h0 : s0.master_key_file <;>
    simp [save_api_key, encrypt_api_key, decrypt_api_key, get_api_key,
      has_api_key, delete_api_key, get_or_create_master_key, fernetDecrypt, h0]
